import Mathlib

/-!
Shallow embedding of the AstroAlch tutorial notebooks.

The repository holds two workflows:

* A catalog workflow (`Notebooks/02.Sessions.ipynb`, database part): declare
  two SQLAlchemy tables `object` (id, ra, dec) and `distance`
  (id, object_id, distance), delete the stale store file, create the schema,
  insert 100 `Object` rows and 100 `Distance` rows one commit per insert, and
  query rows back.

* An estimation workflow (`StellarPopulation`): generate `N` noisy distance
  observations around a true distance and return their arithmetic mean
  together with the wall-clock time of the mean computation in milliseconds.

Real-valued data (`ra`, `dec`, `distance`, the standard-normal samples and the
clock readings) is embedded over `ℚ`; the random draws of the source
(`random.uniform`, `np.random.randn`) and the clock (`time.time`) are
parameters of the embedded functions, so every theorem quantifies over them.
The relational store is modelled exactly as the spec delimits it: an external
collaborator supporting create-table, auto-increment single-row insert,
full scan and filtered first-match scan.
-/

namespace AstroAlch

/-- Row of the `object` table: `id` (Integer primary key, auto-assigned),
`ra` and `dec` (Float, non-null). -/
structure Object where
  id : Nat
  ra : ℚ
  dec : ℚ
deriving DecidableEq

/-- Row of the `distance` table: `id` (Integer primary key, auto-assigned),
`object_id` (Integer, ForeignKey "object.id", non-null), `distance`
(Float, non-null). -/
structure Distance where
  id : Nat
  object_id : Nat
  distance : ℚ
deriving DecidableEq

/-- Insert-time value of an `Object` row before the session flush assigns
its primary key: `Object(ra=ra, dec=dec)`. -/
structure NewObject where
  ra : ℚ
  dec : ℚ
deriving DecidableEq

/-- Insert-time value of a `Distance` row before the session flush assigns
its primary key: `Distance(distance=d, object_id=i)`. -/
structure NewDistance where
  object_id : Nat
  distance : ℚ
deriving DecidableEq

/-- The file-backed relational store: the contents of the two tables created
by `Base.metadata.create_all`, in rowid order. -/
@[ext]
structure Store where
  objects : List Object
  distances : List Distance
deriving DecidableEq

/-- A store whose tables have just been created and hold no rows. -/
def emptyStore : Store := ⟨[], []⟩

/-- Events of the session trace, recording the order of `session.add` and
`session.commit` calls in the insert loops. -/
inductive Event where
  | addObject : Event
  | addDistance : Event
  | commit : Event
deriving DecidableEq

/-- The SQLAlchemy session: the committed store, the pending (staged, not yet
committed) rows of each kind, the number of commits performed, and the trace
of add/commit events. -/
@[ext]
structure Session where
  store : Store
  pendingObjects : List NewObject
  pendingDistances : List NewDistance
  commits : Nat
  trace : List Event
deriving DecidableEq

/-- SQLite flush of pending `Object` rows: each appended row receives the next
auto-increment primary key (one more than the current row count, the store
being append-only in this workflow). -/
def flushObjects (base : List Object) : List NewObject → List Object
  | [] => base
  | p :: rest => flushObjects (base ++ [⟨base.length + 1, p.ra, p.dec⟩]) rest

/-- SQLite flush of pending `Distance` rows, with the same auto-increment
primary-key assignment as `flushObjects` (the two tables count separately). -/
def flushDistances (base : List Distance) : List NewDistance → List Distance
  | [] => base
  | p :: rest => flushDistances (base ++ [⟨base.length + 1, p.object_id, p.distance⟩]) rest

/-- `session.add(new_object)`: stage an `Object` row. -/
def Session.addObject (s : Session) (o : NewObject) : Session :=
  { s with pendingObjects := s.pendingObjects ++ [o], trace := s.trace ++ [.addObject] }

/-- `session.add(new_distance)`: stage a `Distance` row. -/
def Session.addDistance (s : Session) (d : NewDistance) : Session :=
  { s with pendingDistances := s.pendingDistances ++ [d], trace := s.trace ++ [.addDistance] }

/-- `session.commit()`: flush every staged row into the store and close the
transaction. -/
def Session.commit (s : Session) : Session :=
  { store := ⟨flushObjects s.store.objects s.pendingObjects,
              flushDistances s.store.distances s.pendingDistances⟩,
    pendingObjects := [],
    pendingDistances := [],
    commits := s.commits + 1,
    trace := s.trace ++ [.commit] }

/-- Body of one iteration of the `Object` insert loop:
`new_object = Object(ra=ra, dec=dec); session.add(new_object); session.commit()`,
with `ra = random.uniform(9.0, 11.0)` and `dec = random.uniform(-30.0, -33.0)`
embedded as the sample streams `ra i`, `dec i`. -/
def objectStep (ra dec : Nat → ℚ) (s : Session) (i : Nat) : Session :=
  (s.addObject ⟨ra i, dec i⟩).commit

/-- `for i in range(n): ... session.add(Object(ra=ra, dec=dec)); session.commit()`
(the source fixes `n = 100`). -/
def objectLoop (ra dec : Nat → ℚ) (n : Nat) (s : Session) : Session :=
  (List.range n).foldl (objectStep ra dec) s

/-- Body of one iteration of the `Distance` insert loop:
`new_distance = Distance(distance=d, object_id=i); session.add(new_distance);
session.commit()` — note `object_id` is the loop counter `i`, with
`d = random.uniform(40, 60)` embedded as the sample stream `dist i`. -/
def distanceStep (dist : Nat → ℚ) (s : Session) (i : Nat) : Session :=
  (s.addDistance ⟨i, dist i⟩).commit

/-- `for i in range(n): ... session.add(Distance(distance=d, object_id=i));
session.commit()` (the source fixes `n = 100`). -/
def distanceLoop (dist : Nat → ℚ) (n : Nat) (s : Session) : Session :=
  (List.range n).foldl (distanceStep dist) s

/-- The exception raised by `os.remove(dbfile)`: the file may be absent
(`FileNotFoundError`), protected (`PermissionError`), or fail in any other
way (`OSError` subclasses, keyboard interrupt, ...). -/
inductive RemoveError where
  | fileNotFound : RemoveError
  | permissionDenied : RemoveError
  | other : Nat → RemoveError
deriving DecidableEq

/-- Semantics of the bare `os.remove(dbfile)` call: an environment fault (if
any) is raised; otherwise removing an absent file raises `FileNotFoundError`
and removing a present file deletes it. The file state is the store content
`some st`, or `none` when the file is absent. -/
def osRemove (fs : Option Store) (fault : Option RemoveError) :
    Except RemoveError (Option Store) :=
  match fault with
  | some e => .error e
  | none =>
    match fs with
    | none => .error .fileNotFound
    | some _ => .ok none

/-- The bare `except:` clause of `try: os.remove(dbfile) / except: pass`
catches every exception class. -/
def bareExceptCatches : RemoveError → Bool := fun _ => true

/-- `try: os.remove(dbfile) / except: pass` as a whole: on success the file is
gone; on any error the error is swallowed and the file state is unchanged. -/
def afterRemove (fs : Option Store) (fault : Option RemoveError) : Option Store :=
  match osRemove fs fault with
  | .ok fs' => fs'
  | .error _ => fs

/-- `sq.create_engine` + `Base.metadata.create_all(engine)`: opening the file
creates it when absent, and `create_all` creates the missing tables; data
already in an existing file is kept (create_all does not drop tables). -/
def createAll : Option Store → Store
  | none => emptyStore
  | some st => st

/-- The catalog workflow from engine creation on: create the schema over the
(possibly surviving) file, open a session, run the `Object` insert loop and
then the `Distance` insert loop. -/
def runFromFile (fs : Option Store) (ra dec dist : Nat → ℚ) (n : Nat) : Session :=
  distanceLoop dist n (objectLoop ra dec n ⟨createAll fs, [], [], 0, []⟩)

/-- The whole catalog workflow: `try: os.remove(dbfile) / except: pass`, then
engine creation, schema creation and the two insert loops. -/
def runCatalogSession (fs : Option Store) (fault : Option RemoveError)
    (ra dec dist : Nat → ℚ) (n : Nat) : Session :=
  runFromFile (afterRemove fs fault) ra dec dist n

/-- The catalog workflow with exception propagation made explicit: an
exception of the removal step escapes to the caller only when the `except`
clause does not catch it (the source's bare `except:` catches everything). -/
def runCatalog (fs : Option Store) (fault : Option RemoveError)
    (ra dec dist : Nat → ℚ) (n : Nat) : Except RemoveError Session :=
  match osRemove fs fault with
  | .ok fs' => .ok (runFromFile fs' ra dec dist n)
  | .error e =>
    if bareExceptCatches e then .ok (runFromFile fs ra dec dist n) else .error e

/-- `session.query(Object).first()`: first row of a full scan in natural
(insertion) order, or absent. -/
def queryFirstObject (st : Store) : Option Object :=
  st.objects.head?

/-- `session.query(Distance)` materialised as
`np.array([d.distance for d in dist])`. -/
def queryAllDistances (st : Store) : List ℚ :=
  st.distances.map Distance.distance

/-- `session.query(Distance).filter(Distance.object_id==v)`: the rows
matching the equality predicate, in natural order. -/
def queryDistancesByObjectId (st : Store) (v : Nat) : List Distance :=
  st.distances.filter (fun d => d.object_id == v)

/-- `session.query(Distance).filter(Distance.object_id==v).first()`: the
first matching row, or absent when none matches. -/
def queryFirstDistanceByObjectId (st : Store) (v : Nat) : Option Distance :=
  (queryDistancesByObjectId st v).head?

/-- The `StellarPopulation` object of `Notebooks/03` (estimation workflow):
true distance, and after `generate` the sample count `N`, the fractional RMS
error, the observed distances `d_obs` and the parallel identifier strings
`id`. -/
structure StellarPopulation where
  distance : ℚ
  N : Nat
  rms_error : ℚ
  d_obs : List ℚ
  id : List String
deriving DecidableEq

/-- `StellarPopulation.__init__(self, distance)`: stores the true distance.
The attributes set later by `generate` do not exist yet in Python; the
embedding initialises them to the empty defaults `0`, `0`, `[]`, `[]`. -/
def StellarPopulation.init (distance : ℚ) : StellarPopulation :=
  { distance := distance, N := 0, rms_error := 0, d_obs := [], id := [] }

/-- `StellarPopulation.generate(self, N, rms_error)`:
`self.d_obs = self.distance + (self.rms_error * self.distance) * np.random.randn(self.N)`
(elementwise over the `N` standard-normal samples, embedded as the stream
`randn`), and `self.id = map(str, range(self.N))`. -/
def StellarPopulation.generate (p : StellarPopulation) (N : Nat) (rms_error : ℚ)
    (randn : Nat → ℚ) : StellarPopulation :=
  { p with
    N := N,
    rms_error := rms_error,
    d_obs := (List.range N).map (fun k => p.distance + (rms_error * p.distance) * randn k),
    id := (List.range N).map (fun k => toString k) }

/-- `np.mean`: the arithmetic mean of a sequence (over `ℚ`; `x / 0 = 0`
stands in for the undefined mean of an empty sequence). -/
def npMean (xs : List ℚ) : ℚ := xs.sum / xs.length

/-- `StellarPopulation.estimate_mean_distance(self)`: read the wall clock,
compute `mu = np.mean(self.d_obs)`, read the wall clock again, and return
`mu` with the elapsed time `(end - start) * 1e3` in milliseconds. The wall
clock is embedded as the stream `clock` of successive `wallclock.time()`
readings in seconds (`clock 0` before the mean, `clock 1` after); the method
assigns no attribute, so it also returns the unchanged object state. -/
def StellarPopulation.estimate_mean_distance (p : StellarPopulation)
    (clock : Nat → ℚ) : (ℚ × ℚ) × StellarPopulation :=
  let start := clock 0
  let mu := npMean p.d_obs
  let stop := clock 1
  let time := (stop - start) * 1000
  ((mu, time), p)

/-- IEEE round-half-to-even to an integer, the rounding rule of `np.round`. -/
def roundHalfEven (q : ℚ) : ℤ :=
  if q - ⌊q⌋ < 1 / 2 then ⌊q⌋
  else if 1 / 2 < q - ⌊q⌋ then ⌊q⌋ + 1
  else if ⌊q⌋ % 2 = 0 then ⌊q⌋ else ⌊q⌋ + 1

/-- `np.round(x, 1)`: round to one decimal place, half to even. -/
def npRound1 (q : ℚ) : ℚ := (roundHalfEven (q * 10) : ℚ) / 10

/-! ### Closed forms of the insert loops -/

/-- A block repeated `n` times commutes with one more copy of itself. -/
theorem flatten_replicate_comm {α : Type} (n : Nat) (x : List α) :
    (List.replicate n x).flatten ++ x = x ++ (List.replicate n x).flatten := by
  induction n with
  | zero => simp
  | succ n ih => simp [List.replicate_succ, List.append_assoc, ih]

/-- Peeling the last iteration off the `Object` insert loop. -/
theorem objectLoop_succ (ra dec : Nat → ℚ) (n : Nat) (s : Session) :
    objectLoop ra dec (n + 1) s = objectStep ra dec (objectLoop ra dec n s) n := by
  simp [objectLoop, List.range_succ]

/-- Peeling the last iteration off the `Distance` insert loop. -/
theorem distanceLoop_succ (dist : Nat → ℚ) (n : Nat) (s : Session) :
    distanceLoop dist (n + 1) s = distanceStep dist (distanceLoop dist n s) n := by
  simp [distanceLoop, List.range_succ]

/-- Closed form of the `Object` insert loop started with no staged rows: it
appends `n` rows whose auto-increment ids continue from the current row
count, leaves the `Distance` table and the staging area untouched, performs
`n` commits, and its trace is `n` copies of add-then-commit. -/
theorem objectLoop_spec (ra dec : Nat → ℚ) (n : Nat) (s : Session)
    (hO : s.pendingObjects = []) (hD : s.pendingDistances = []) :
    objectLoop ra dec n s =
      ⟨⟨s.store.objects ++ (List.range n).map
          (fun i => ⟨s.store.objects.length + i + 1, ra i, dec i⟩),
        s.store.distances⟩, [], [], s.commits + n,
        s.trace ++ (List.replicate n [Event.addObject, Event.commit]).flatten⟩ := by
  induction n with
  | zero =>
    simp [objectLoop]
    exact Session.ext (Store.ext rfl rfl) hO hD rfl rfl
  | succ n ih =>
    rw [objectLoop_succ, ih]
    simp only [objectStep, Session.addObject, Session.commit, flushObjects, flushDistances,
      List.nil_append, List.range_succ, List.map_append, List.map_cons, List.map_nil,
      List.length_append, List.length_map, List.length_range, List.append_assoc,
      List.replicate_succ, List.flatten_cons, List.cons_append, List.singleton_append]
    refine Session.ext (Store.ext rfl rfl) rfl rfl ?_ ?_
    · show s.commits + n + 1 = s.commits + (n + 1)
      omega
    · show s.trace ++ ((List.replicate n [Event.addObject, Event.commit]).flatten
            ++ [Event.addObject, Event.commit])
          = s.trace ++ ([Event.addObject, Event.commit]
            ++ (List.replicate n [Event.addObject, Event.commit]).flatten)
      rw [flatten_replicate_comm]

/-- Closed form of the `Distance` insert loop started with no staged rows: it
appends `n` rows whose `object_id` is the loop counter and whose
auto-increment ids continue from the current row count, leaves the `Object`
table untouched, performs `n` commits, and its trace is `n` copies of
add-then-commit. -/
theorem distanceLoop_spec (dist : Nat → ℚ) (n : Nat) (s : Session)
    (hO : s.pendingObjects = []) (hD : s.pendingDistances = []) :
    distanceLoop dist n s =
      ⟨⟨s.store.objects,
        s.store.distances ++ (List.range n).map
          (fun i => ⟨s.store.distances.length + i + 1, i, dist i⟩)⟩,
        [], [], s.commits + n,
        s.trace ++ (List.replicate n [Event.addDistance, Event.commit]).flatten⟩ := by
  induction n with
  | zero =>
    simp [distanceLoop]
    exact Session.ext (Store.ext rfl rfl) hO hD rfl rfl
  | succ n ih =>
    rw [distanceLoop_succ, ih]
    simp only [distanceStep, Session.addDistance, Session.commit, flushObjects, flushDistances,
      List.nil_append, List.range_succ, List.map_append, List.map_cons, List.map_nil,
      List.length_append, List.length_map, List.length_range, List.append_assoc,
      List.replicate_succ, List.flatten_cons, List.cons_append, List.singleton_append]
    refine Session.ext (Store.ext rfl rfl) rfl rfl ?_ ?_
    · show s.commits + n + 1 = s.commits + (n + 1)
      omega
    · show s.trace ++ ((List.replicate n [Event.addDistance, Event.commit]).flatten
            ++ [Event.addDistance, Event.commit])
          = s.trace ++ ([Event.addDistance, Event.commit]
            ++ (List.replicate n [Event.addDistance, Event.commit]).flatten)
      rw [flatten_replicate_comm]

/-- Closed form of the whole workflow on a fresh store: `Object` rows get ids
`1..n` in insertion order, `Distance` rows get ids `1..n` and `object_id`s
`0..n-1` in insertion order, `n + n` commits are performed, and the trace is
the object phase followed by the distance phase, each one add-then-commit
pair per row. -/
theorem runFromFile_none_spec (ra dec dist : Nat → ℚ) (n : Nat) :
    runFromFile none ra dec dist n =
      ⟨⟨(List.range n).map (fun i => ⟨i + 1, ra i, dec i⟩),
        (List.range n).map (fun i => ⟨i + 1, i, dist i⟩)⟩, [], [], n + n,
        (List.replicate n [Event.addObject, Event.commit]).flatten
          ++ (List.replicate n [Event.addDistance, Event.commit]).flatten⟩ := by
  rw [runFromFile, objectLoop_spec ra dec n _ rfl rfl]
  rw [distanceLoop_spec dist n _ rfl rfl]
  simp [createAll, emptyStore]

/-- On a fresh run the `try/except` removal step always leaves the file
absent: a present file is removed, an absent one raises `FileNotFoundError`
which the bare `except:` swallows. -/
theorem afterRemove_none (prior : Option Store) : afterRemove prior none = none := by
  cases prior <;> rfl

/-- The whole fresh-run workflow is the workflow on an absent file. -/
theorem runCatalogSession_eq_fresh (prior : Option Store) (ra dec dist : Nat → ℚ) (n : Nat) :
    runCatalogSession prior none ra dec dist n = runFromFile none ra dec dist n := by
  rw [runCatalogSession, afterRemove_none]

/-- Filtering the generated `Distance` rows by `object_id == v` yields the
single row inserted at loop index `v` when `v < n`, and nothing otherwise. -/
theorem filter_distance_rows (dist : Nat → ℚ) (n v : Nat) :
    ((List.range n).map (fun i => (⟨i + 1, i, dist i⟩ : Distance))).filter
        (fun d => d.object_id == v)
      = if v < n then [⟨v + 1, v, dist v⟩] else [] := by
  induction n with
  | zero => simp
  | succ n ih =>
    rw [List.range_succ, List.map_append, List.filter_append, ih]
    by_cases h1 : v < n
    · have hne : ¬ n = v := by omega
      simp [h1, Nat.lt_succ_of_lt h1, hne]
    · by_cases h2 : v = n
      · subst h2
        simp [h1, Nat.lt_succ_self]
      · have h3 : ¬ v < n + 1 := by omega
        have hne : ¬ n = v := fun hc => h2 hc.symm
        simp [h1, h3, hne]

/-- Round-half-to-even lands within half a unit of its argument. -/
theorem abs_roundHalfEven_sub_le (q : ℚ) : |((roundHalfEven q : ℤ) : ℚ) - q| ≤ 1 / 2 := by
  have h0 : ((⌊q⌋ : ℤ) : ℚ) ≤ q := Int.floor_le q
  have h1 : q < ⌊q⌋ + 1 := Int.lt_floor_add_one q
  unfold roundHalfEven
  split_ifs with hlt hgt heven
  · rw [abs_le]
    constructor <;> linarith
  · rw [abs_le]
    push_cast
    constructor <;> linarith
  · rw [abs_le]
    constructor <;> linarith [not_lt.mp hlt, not_lt.mp hgt]
  · rw [abs_le]
    push_cast
    constructor <;> linarith [not_lt.mp hlt, not_lt.mp hgt]

/-- `np.round(x, 1)` lands within half a tenth of its argument. -/
theorem abs_npRound1_sub_le (t : ℚ) : |npRound1 t - t| ≤ 1 / 20 := by
  have h := abs_roundHalfEven_sub_le (t * 10)
  have h10 : npRound1 t - t = (((roundHalfEven (t * 10) : ℤ) : ℚ) - t * 10) / 10 := by
    rw [npRound1]
    ring
  rw [h10, abs_div, abs_of_pos (by norm_num : (0 : ℚ) < 10)]
  linarith

/-! ### The claims -/

/-- C1: the claim asserts referential integrity of the persisted catalog —
every inserted `Distance` row's `object_id` references an existing `Object`
row's `id`. The code violates it: the `Distance` loop uses the loop counter
`0..n-1` as `object_id` while the auto-assigned `Object` ids are `1..n`, so
the `Distance` row inserted at loop index `0` references no `Object` at all.
This theorem exhibits the dangling row on any run with at least one insert. -/
theorem distance_zero_dangling (ra dec dist : Nat → ℚ) (n : Nat) (h : 0 < n) :
    ∃ d ∈ (runCatalogSession none none ra dec dist n).store.distances,
      ∀ o ∈ (runCatalogSession none none ra dec dist n).store.objects,
        o.id ≠ d.object_id := by
  rw [runCatalogSession_eq_fresh, runFromFile_none_spec]
  refine ⟨⟨0 + 1, 0, dist 0⟩, ?_, ?_⟩
  · exact List.mem_map_of_mem _ (List.mem_range.mpr h)
  · intro o ho
    obtain ⟨i, _, rfl⟩ := List.mem_map.mp ho
    simp

/-- Witness for `distance_zero_dangling` at the source's `n = 100`. -/
theorem distance_zero_dangling_witness :
    ∃ d ∈ (runCatalogSession none none (fun _ => 0) (fun _ => 0) (fun _ => 0) 100).store.distances,
      ∀ o ∈ (runCatalogSession none none (fun _ => 0) (fun _ => 0) (fun _ => 0) 100).store.objects,
        o.id ≠ d.object_id :=
  distance_zero_dangling (fun _ => 0) (fun _ => 0) (fun _ => 0) 100 (by decide)

/-- C2: after the catalog workflow inserts `n` `Object` rows into a fresh
store, a full scan returns exactly `n` rows whose auto-assigned ids are the
contiguous increasing sequence `1, 2, ..., n`, and
`session.query(Object).first()` yields the row with id `1`. -/
theorem catalog_objects_contiguous (ra dec dist : Nat → ℚ) (n : Nat) (h : 0 < n) :
    (runCatalogSession none none ra dec dist n).store.objects.length = n
    ∧ (runCatalogSession none none ra dec dist n).store.objects.map Object.id
        = List.range' 1 n
    ∧ (queryFirstObject (runCatalogSession none none ra dec dist n).store).map Object.id
        = some 1 := by
  rw [runCatalogSession_eq_fresh, runFromFile_none_spec]
  refine ⟨by simp, ?_, ?_⟩
  · rw [List.range'_eq_map_range]
    simp [List.map_map, Function.comp, Nat.add_comm]
  · obtain ⟨m, rfl⟩ : ∃ m, n = m + 1 := ⟨n - 1, by omega⟩
    rw [queryFirstObject, List.range_succ_eq_map]
    simp

/-- Witness for `catalog_objects_contiguous` at `n = 3`. -/
theorem catalog_objects_contiguous_witness :
    (runCatalogSession none none (fun _ => 0) (fun _ => 0) (fun _ => 0) 3).store.objects.length = 3
    ∧ (runCatalogSession none none (fun _ => 0) (fun _ => 0) (fun _ => 0) 3).store.objects.map Object.id
        = List.range' 1 3
    ∧ (queryFirstObject (runCatalogSession none none (fun _ => 0) (fun _ => 0) (fun _ => 0) 3).store).map Object.id
        = some 1 :=
  catalog_objects_contiguous (fun _ => 0) (fun _ => 0) (fun _ => 0) 3 (by decide)

/-- C3: the `n` `Distance` rows produced by the catalog workflow carry
`object_id` values that are exactly the integers `0` through `n - 1` in
insertion order, each occurring exactly once. -/
theorem catalog_distance_object_ids (ra dec dist : Nat → ℚ) (n : Nat) :
    (runCatalogSession none none ra dec dist n).store.distances.length = n
    ∧ (runCatalogSession none none ra dec dist n).store.distances.map Distance.object_id
        = List.range n
    ∧ ((runCatalogSession none none ra dec dist n).store.distances.map
        Distance.object_id).Nodup := by
  have hmap : (runCatalogSession none none ra dec dist n).store.distances.map
      Distance.object_id = List.range n := by
    rw [runCatalogSession_eq_fresh, runFromFile_none_spec, List.map_map]
    exact List.map_id' _
  refine ⟨?_, hmap, by rw [hmap]; exact List.nodup_range n⟩
  rw [runCatalogSession_eq_fresh, runFromFile_none_spec]
  simp

/-- C4: `StellarPopulation.generate` produces exactly `N` observations with
observation `k` equal to `mu + (sigma * mu) * z k`, and
`StellarPopulation.estimate_mean_distance` returns as its estimate the
arithmetic mean (sum over `N`) of that observation sequence. -/
theorem generate_and_estimate (mu : ℚ) (N : Nat) (sigma : ℚ) (randn clock : Nat → ℚ)
    (_h : 0 < N) :
    ((StellarPopulation.init mu).generate N sigma randn).d_obs
        = (List.range N).map (fun k => mu + (sigma * mu) * randn k)
    ∧ ((StellarPopulation.init mu).generate N sigma randn).d_obs.length = N
    ∧ (((StellarPopulation.init mu).generate N sigma randn).estimate_mean_distance clock).1.1
        = ((StellarPopulation.init mu).generate N sigma randn).d_obs.sum / (N : ℚ) := by
  refine ⟨rfl, by simp [StellarPopulation.generate], ?_⟩
  simp [StellarPopulation.estimate_mean_distance, npMean, StellarPopulation.generate]

/-- Witness for `generate_and_estimate` at `mu = 3`, `N = 2`, `sigma = 1/10`,
`z = (0, 1, ...)`. -/
theorem generate_and_estimate_witness :
    ((StellarPopulation.init 3).generate 2 (1 / 10) (fun k => (k : ℚ))).d_obs
        = (List.range 2).map (fun k => (3 : ℚ) + (1 / 10 * 3) * (k : ℚ))
    ∧ ((StellarPopulation.init 3).generate 2 (1 / 10) (fun k => (k : ℚ))).d_obs.length = 2
    ∧ (((StellarPopulation.init 3).generate 2 (1 / 10) (fun k => (k : ℚ))).estimate_mean_distance
          (fun _ => 0)).1.1
        = ((StellarPopulation.init 3).generate 2 (1 / 10) (fun k => (k : ℚ))).d_obs.sum / (2 : ℚ) :=
  generate_and_estimate 3 2 (1 / 10) (fun k => (k : ℚ)) (fun _ => 0) (by decide)

/-- C5: `session.query(Distance).filter(Distance.object_id==v).first()` on
the generated store finds exactly one matching row (the one inserted at loop
index `v`) when `v` was used as an `object_id` (`v < n`), and returns the
absent value — not an error — when it was not (`n ≤ v`). -/
theorem distance_filter_first (ra dec dist : Nat → ℚ) (n v : Nat) :
    (v < n →
      (queryDistancesByObjectId (runCatalogSession none none ra dec dist n).store v).length = 1
      ∧ queryFirstDistanceByObjectId (runCatalogSession none none ra dec dist n).store v
          = some ⟨v + 1, v, dist v⟩)
    ∧ (n ≤ v →
      queryFirstDistanceByObjectId (runCatalogSession none none ra dec dist n).store v
        = none) := by
  rw [runCatalogSession_eq_fresh]
  constructor
  · intro hv
    rw [queryFirstDistanceByObjectId, queryDistancesByObjectId, runFromFile_none_spec]
    constructor
    · show (((List.range n).map (fun i => (⟨i + 1, i, dist i⟩ : Distance))).filter
          (fun d => d.object_id == v)).length = 1
      rw [filter_distance_rows, if_pos hv]
      rfl
    · show (((List.range n).map (fun i => (⟨i + 1, i, dist i⟩ : Distance))).filter
          (fun d => d.object_id == v)).head? = some ⟨v + 1, v, dist v⟩
      rw [filter_distance_rows, if_pos hv]
      rfl
  · intro hv
    rw [queryFirstDistanceByObjectId, queryDistancesByObjectId, runFromFile_none_spec]
    show (((List.range n).map (fun i => (⟨i + 1, i, dist i⟩ : Distance))).filter
        (fun d => d.object_id == v)).head? = none
    rw [filter_distance_rows, if_neg (by omega)]
    rfl

/-- Witness for `distance_filter_first` at `n = 3` with a used id (`v = 1`)
and an unused one (`v = 5`). -/
theorem distance_filter_first_witness :
    ((queryDistancesByObjectId
        (runCatalogSession none none (fun _ => 0) (fun _ => 0) (fun _ => 0) 3).store 1).length = 1
      ∧ queryFirstDistanceByObjectId
          (runCatalogSession none none (fun _ => 0) (fun _ => 0) (fun _ => 0) 3).store 1
        = some ⟨2, 1, 0⟩)
    ∧ queryFirstDistanceByObjectId
        (runCatalogSession none none (fun _ => 0) (fun _ => 0) (fun _ => 0) 3).store 5
      = none :=
  ⟨(distance_filter_first (fun _ => 0) (fun _ => 0) (fun _ => 0) 3 1).1 (by decide),
   (distance_filter_first (fun _ => 0) (fun _ => 0) (fun _ => 0) 3 5).2 (by decide)⟩

/-- C6: fresh-start behavior — whatever the prior state of the store file,
the removal step leaves no file behind, the workflow result is the same as on
an absent file, and the resulting store holds exactly the rows inserted by
this run. -/
theorem catalog_fresh_start (prior : Option Store) (ra dec dist : Nat → ℚ) (n : Nat) :
    afterRemove prior none = none
    ∧ runCatalogSession prior none ra dec dist n = runCatalogSession none none ra dec dist n
    ∧ (runCatalogSession prior none ra dec dist n).store.objects
        = (List.range n).map (fun i => ⟨i + 1, ra i, dec i⟩)
    ∧ (runCatalogSession prior none ra dec dist n).store.distances
        = (List.range n).map (fun i => ⟨i + 1, i, dist i⟩) := by
  refine ⟨afterRemove_none prior, ?_, ?_, ?_⟩
  · rw [runCatalogSession_eq_fresh, runCatalogSession_eq_fresh]
  · rw [runCatalogSession_eq_fresh, runFromFile_none_spec]
  · rw [runCatalogSession_eq_fresh, runFromFile_none_spec]

/-- C7: every single-record insert is followed by its own commit before the
next insert begins — the trace is `n` add/commit pairs for the `Object` phase
followed by `n` add/commit pairs for the `Distance` phase — so persisting the
`2n` records performs exactly `2n` commits. -/
theorem catalog_one_commit_per_insert (ra dec dist : Nat → ℚ) (n : Nat) :
    (runCatalogSession none none ra dec dist n).commits = 2 * n
    ∧ (runCatalogSession none none ra dec dist n).store.objects.length
        + (runCatalogSession none none ra dec dist n).store.distances.length = 2 * n
    ∧ (runCatalogSession none none ra dec dist n).trace
        = (List.replicate n [Event.addObject, Event.commit]).flatten
          ++ (List.replicate n [Event.addDistance, Event.commit]).flatten := by
  rw [runCatalogSession_eq_fresh, runFromFile_none_spec]
  refine ⟨by show n + n = 2 * n; omega, by simp; omega, rfl⟩

/-- C8: `estimate_mean_distance` returns, alongside the estimate, the
elapsed wall-clock time of the mean computation — the difference of the two
clock readings taken around it, in seconds times `1e3`, i.e. milliseconds —
and the displayed `np.round(time, 1)` is that time rounded to one decimal
place (an integer number of tenths, within half a tenth of the raw time). -/
theorem estimate_time_milliseconds (p : StellarPopulation) (clock : Nat → ℚ) :
    (p.estimate_mean_distance clock).1.2 = (clock 1 - clock 0) * 1000
    ∧ npRound1 ((p.estimate_mean_distance clock).1.2) * 10
        = ((roundHalfEven ((p.estimate_mean_distance clock).1.2 * 10) : ℤ) : ℚ)
    ∧ |npRound1 ((p.estimate_mean_distance clock).1.2)
        - (p.estimate_mean_distance clock).1.2| ≤ 1 / 20 := by
  refine ⟨rfl, ?_, abs_npRound1_sub_le _⟩
  rw [npRound1]
  ring

/-- C9: `estimate_mean_distance` does not modify the population's state —
every field of the returned object state equals the field before the call —
and calling it again (with any later clock readings, also on the returned
state) yields the same estimate. -/
theorem estimate_mean_distance_pure (p : StellarPopulation) (c c' : Nat → ℚ) :
    (p.estimate_mean_distance c).2 = p
    ∧ (p.estimate_mean_distance c).2.distance = p.distance
    ∧ (p.estimate_mean_distance c).2.N = p.N
    ∧ (p.estimate_mean_distance c).2.rms_error = p.rms_error
    ∧ (p.estimate_mean_distance c).2.d_obs = p.d_obs
    ∧ (p.estimate_mean_distance c).2.id = p.id
    ∧ (((p.estimate_mean_distance c).2).estimate_mean_distance c').1.1
        = (p.estimate_mean_distance c).1.1 :=
  ⟨rfl, rfl, rfl, rfl, rfl, rfl, rfl⟩

/-- C10: the bare `except:` around `os.remove` suppresses every failure, not
only the file-not-found case — for any error raised while removing the store
file the workflow returns successfully, continuing to engine creation over
the unremoved file rather than surfacing the error. -/
theorem remove_suppresses_all_errors (prior : Option Store) (e : RemoveError)
    (ra dec dist : Nat → ℚ) (n : Nat) :
    (runCatalog prior (some e) ra dec dist n).isOk = true
    ∧ runCatalog prior (some e) ra dec dist n
        = Except.ok (runFromFile prior ra dec dist n) :=
  ⟨rfl, rfl⟩

end AstroAlch
